import Mathlib

/-!
Verification development for the microVM sandbox orchestrator
(Firecracker provider): network allocator (firecracker-network),
privileged gateway validators (fc-helper.sh), sandbox instance
(firecracker-sandbox-instance), and orchestrator (firecracker-provider).

Strings are modelled as lists of characters; machine integers as Nat
with explicit masking where the JavaScript source masks.
-/

namespace Manaflow

abbrev Str := List Char

/-- Fuel-driven decimal rendering; fuel n + 1 suffices for n. -/
def decDigitsF : Nat → Nat → List Char
  | 0, _ => []
  | fuel + 1, n =>
    if n < 10 then [Nat.digitChar n]
    else decDigitsF fuel (n / 10) ++ [Nat.digitChar (n % 10)]

/-- Decimal rendering of a natural number, as JavaScript template-literal
interpolation produces it (most significant digit first, no sign, no pad). -/
def decDigits (n : Nat) : List Char := decDigitsF (n + 1) n

/-- Numeric value of a decimal digit character (JS parseInt semantics on
digit runs: accumulate base 10). -/
def digitVal (c : Char) : Nat := c.toNat - 48

/-- parseInt(s, 10) on a string of decimal digits. -/
def parseDigits (ds : List Char) : Nat :=
  ds.foldl (fun a c => a * 10 + digitVal c) 0

/-! ### Network allocation records (firecracker-network, TapAllocation)

The /30 subnet arithmetic follows allocateTap: flatOffset = idx * 4,
octet2 = (flatOffset >> 8) & 0xff, octet3 = flatOffset & 0xff, rendered
into dotted-decimal strings.  JavaScript bitwise operators act on 32-bit
values; for every index the allocator handles (idx < 16384, so
flatOffset < 2^16) the 32-bit truncation is a no-op, and the shift/mask
are modelled as division and remainder by 256. -/

/-- octet2 in allocateTap / recreateTap: (idx*4 >> 8) & 0xff. -/
def octet2Of (idx : Nat) : Nat := (idx * 4 / 256) % 256

/-- octet3 in allocateTap / recreateTap: (idx*4) & 0xff. -/
def octet3Of (idx : Nat) : Nat := (idx * 4) % 256

/-- Dotted string 172.16.<o2>.<o3> as the template literal renders it. -/
def ipStr (o2 o3 : Nat) : Str :=
  String.data "172.16." ++ decDigits o2 ++ '.' :: decDigits o3

/-- Host IP of a subnet index: 172.16.<octet2>.<octet3 + 1>. -/
def hostIpOf (idx : Nat) : Str := ipStr (octet2Of idx) (octet3Of idx + 1)

/-- Guest IP of a subnet index: 172.16.<octet2>.<octet3 + 2>. -/
def guestIpOf (idx : Nat) : Str := ipStr (octet2Of idx) (octet3Of idx + 2)

/-- TAP device name of a subnet index: fc_tap<idx>. -/
def tapNameOf (idx : Nat) : Str := String.data "fc_tap" ++ decDigits idx

/-- Two-character lowercase hex rendering of a byte
(toString(16).padStart(2, "0")). -/
def hexByte (n : Nat) : List Char := [Nat.digitChar (n / 16 % 16), Nat.digitChar (n % 16)]

/-- generateMac: locally-administered MAC 02:FC:00:00:<b0>:<b1> with
b0 = (idx >> 8) & 0xff and b1 = idx & 0xff. -/
def generateMac (idx : Nat) : Str :=
  String.data "02:FC:00:00:" ++ hexByte (idx / 256 % 256) ++ ':' :: hexByte (idx % 256)

/-- The TapAllocation record returned by allocateTap / recreateTap. -/
structure TapAllocation where
  tapName : Str
  guestIp : Str
  hostIp : Str
  guestMac : Str
  subnetIndex : Nat
deriving DecidableEq, Repr

/-- The allocation allocateTap builds once it has reserved index idx. -/
def deriveAllocation (idx : Nat) : TapAllocation :=
  { tapName := tapNameOf idx
    guestIp := guestIpOf idx
    hostIp := hostIpOf idx
    guestMac := generateMac idx
    subnetIndex := idx }

/-! ### recreateTap's tapName.match(/fc_tap(\d+)/) -/

/-- First match of the pattern fc_tap(\d+): scan left to right; at each
position, if the literal fc_tap is present and followed by at least one
decimal digit, capture the maximal digit run; otherwise advance one
character. -/
def findTapMatch : List Char → Option (List Char)
  | [] => none
  | c :: rest =>
    if (c :: rest).take 6 = ['f', 'c', '_', 't', 'a', 'p'] then
      let ds := ((c :: rest).drop 6).takeWhile Char.isDigit
      if ds = [] then findTapMatch rest else some ds
    else findTapMatch rest

/-- Subnet index recreateTap recovers from a TAP name:
parseInt of the first fc_tap(\d+) capture, none when the regex fails. -/
def parseTapIdx (tn : Str) : Option Nat := (findTapMatch tn).map parseDigits

/-! ### Allocator state machine (allocatedSubnets set, live allocations)

The module-level allocatedSubnets set is the reserved-index set; the
live component is the ghost list of allocations handed out and not yet
passed to releaseTap.  Gateway (fc-helper) calls may fail; a Bool flag
per operation models the success of the TAP-create/NAT-setup sequence,
and a failure replays the catch block: delete the reserved index and
propagate the error (no allocation is returned). -/

structure AllocState where
  reserved : Finset Nat
  live : List TapAllocation
deriving DecidableEq

/-- The while loop of allocateTap: starting at index idx, advance past
reserved indices; indices are exhausted when the counter reaches 16384.
Fuel bounds the recursion; allocateTap runs it with fuel 16384 from 0,
which is enough for the loop as written. -/
def lowestFreeFrom (r : Finset Nat) : Nat → Nat → Option Nat
  | _, 0 => none
  | idx, fuel + 1 =>
    if idx ∈ r then
      if idx + 1 ≥ 16384 then none else lowestFreeFrom r (idx + 1) fuel
    else some idx

/-- Index chosen by allocateTap: lowest subnet index not reserved,
none when all 16384 are taken. -/
def findFreeIdx (r : Finset Nat) : Option Nat := lowestFreeFrom r 0 16384

/-- Allocation produced by recreateTap from caller-supplied tapName,
guestIp and guestMac: the subnet index is parsed back out of the TAP
name and only the host IP is re-derived from it. -/
def recreatedAllocation (tn gi gm : Str) (idx : Nat) : TapAllocation :=
  { tapName := tn
    guestIp := gi
    hostIp := hostIpOf idx
    guestMac := gm
    subnetIndex := idx }

/-- One allocator call.  gwOk models whether the gateway sequence
(tap-create + nat-setup) succeeds. -/
inductive AllocOp where
  | alloc (gwOk : Bool)
  | recreate (tn gi gm : Str) (gwOk : Bool)
  | release (a : TapAllocation)
deriving DecidableEq

/-- State transition of one allocator call, straight from the source:
allocateTap reserves the lowest free index then rolls the reservation
back on gateway failure; recreateTap parses the index from the TAP name
and reserves it unconditionally, rolling back on gateway failure;
releaseTap removes the index after best-effort teardown. -/
def allocStep (s : AllocState) : AllocOp → AllocState
  | .alloc gwOk =>
    match findFreeIdx s.reserved with
    | none => s
    | some idx =>
      if gwOk then
        { reserved := insert idx s.reserved, live := s.live ++ [deriveAllocation idx] }
      else
        { reserved := (insert idx s.reserved).erase idx, live := s.live }
  | .recreate tn gi gm gwOk =>
    match parseTapIdx tn with
    | none => s
    | some idx =>
      if gwOk then
        { reserved := insert idx s.reserved,
          live := s.live ++ [recreatedAllocation tn gi gm idx] }
      else
        { reserved := (insert idx s.reserved).erase idx, live := s.live }
  | .release a =>
    { reserved := s.reserved.erase a.subnetIndex, live := s.live.erase a }

/-- Run a call sequence from an initial reserved set (the startup scan
of existing fc_tap devices) with no live allocations. -/
def runTrace (r0 : Finset Nat) (ops : List AllocOp) : AllocState :=
  ops.foldl allocStep { reserved := r0, live := [] }

/-- Caller well-formedness of one call in a given state: releaseTap is
passed a live allocation, and recreateTap is driven by metadata of an
allocation the allocator previously produced (derived tapName/guestIp of
an in-range index) whose index has no live allocation. -/
def wfOp (s : AllocState) : AllocOp → Prop
  | .alloc _ => True
  | .recreate tn gi _ _ =>
    ∃ idx, idx < 16384 ∧ tn = tapNameOf idx ∧ gi = guestIpOf idx ∧
      ∀ a ∈ s.live, a.subnetIndex ≠ idx
  | .release a => a ∈ s.live

/-- Well-formedness of a call sequence from a state. -/
def wfFrom (s : AllocState) : List AllocOp → Prop
  | [] => True
  | op :: ops => wfOp s op ∧ wfFrom (allocStep s op) ops

/-- Allocator invariant: every live allocation has an in-range index,
carries exactly the tapName/guestIp derived from its index, its index is
reserved, and no two live allocations share an index. -/
def AllocInv (s : AllocState) : Prop :=
  (∀ a ∈ s.live, a.subnetIndex < 16384 ∧ a.tapName = tapNameOf a.subnetIndex ∧
    a.guestIp = guestIpOf a.subnetIndex ∧ a.subnetIndex ∈ s.reserved) ∧
  s.live.Pairwise (fun a b => a.subnetIndex ≠ b.subnetIndex)

/-! ### Privileged gateway (fc-helper.sh): argument validators and
subcommand dispatch.

Each subcommand is modelled as a function from its positional arguments
to either a gateway error (usage message or validator rejection, both
exit 1) or the list of host commands it executes, each command an argv
list.  Values the script reads from the host (the /proc comm name for
kill) are extra parameters. -/

/-- String literal as a character list. -/
def lit (s : String) : Str := s.data

/-- POSIX [[:space:]] character class. -/
def isSpaceCh (c : Char) : Bool :=
  c = ' ' || c = '\t' || c = '\n' || c = '\r' ||
  c = Char.ofNat 11 || c = Char.ofNat 12

/-- Substring test for the two-dot sequence of the path validator. -/
def hasDotDot : List Char → Bool
  | c1 :: c2 :: rest => (c1 = '.' && c2 = '.') || hasDotDot (c2 :: rest)
  | _ => false

/-- validate_path: rejects whitespace, a dot-dot sequence, or a leading
dash. -/
def validatePath (p : Str) : Bool :=
  !(p.any isSpaceCh) && !(hasDotDot p) &&
  !(match p with | '-' :: _ => true | _ => false)

/-- Character class of the TAP-name validator: [a-zA-Z0-9_]. -/
def isWordCh (c : Char) : Bool := c.isAlphanum || c = '_'

/-- validate_tap: ^[a-zA-Z0-9_]{1,15}$. -/
def validateTap (t : Str) : Bool :=
  decide (1 ≤ t.length) && decide (t.length ≤ 15) && t.all isWordCh

/-- Split a character list at every dot, keeping empty segments. -/
def splitDots : List Char → List (List Char)
  | [] => [[]]
  | c :: rest =>
    let ps := splitDots rest
    if c = '.' then [] :: ps
    else
      match ps with
      | [] => [[c]]
      | p :: t => (c :: p) :: t

/-- A non-empty run of decimal digits. -/
def isDigitRun (l : List Char) : Bool := !l.isEmpty && l.all Char.isDigit

/-- validate_ip: ^[0-9]+\.[0-9]+\.[0-9]+\.[0-9]+$, i.e. exactly four
dot-separated non-empty digit runs. -/
def validateIp (s : Str) : Bool :=
  decide ((splitDots s).length = 4) && (splitDots s).all isDigitRun

/-- validate_port: ^[0-9]+$ and 1 ≤ port ≤ 65535. -/
def validatePort (s : Str) : Bool :=
  isDigitRun s && decide (1 ≤ parseDigits s) && decide (parseDigits s ≤ 65535)

/-- validate_pid: ^[0-9]+$. -/
def validatePid (s : Str) : Bool := isDigitRun s

inductive GwErr where
  | usage
  | invalidPath
  | invalidTap
  | invalidIp
  | invalidPort
  | invalidPid
  | binaryNotExecutable
  | notFirecracker
deriving DecidableEq, Repr

/-- spawn FC_BIN SOCKET_PATH [--daemonize]: validates both paths, checks
the binary is executable (host state parameter), removes the stale
socket, launches the hypervisor. -/
def spawnGw (fcBin socketPath : Str) (executable : Bool) :
    Except GwErr (List (List Str)) :=
  if fcBin = [] ∨ socketPath = [] then .error .usage
  else if validatePath fcBin = false then .error .invalidPath
  else if validatePath socketPath = false then .error .invalidPath
  else if executable = false then .error .binaryNotExecutable
  else .ok [[lit "rm", lit "-f", socketPath],
            [fcBin, lit "--api-sock", socketPath]]

/-- tap-create TAP_NAME HOST_IP PREFIX_LEN: validates the TAP name and
the host IP; PREFIX_LEN is only checked to be non-empty. -/
def tapCreate (tapName hostIp prefixLen : Str) : Except GwErr (List (List Str)) :=
  if tapName = [] ∨ hostIp = [] ∨ prefixLen = [] then .error .usage
  else if validateTap tapName = false then .error .invalidTap
  else if validateIp hostIp = false then .error .invalidIp
  else .ok [[lit "ip", lit "tuntap", lit "add", lit "dev", tapName, lit "mode", lit "tap"],
            [lit "ip", lit "addr", lit "add", hostIp ++ '/' :: prefixLen, lit "dev", tapName],
            [lit "ip", lit "link", lit "set", tapName, lit "up"]]

/-- tap-delete TAP_NAME. -/
def tapDelete (tapName : Str) : Except GwErr (List (List Str)) :=
  if tapName = [] then .error .usage
  else if validateTap tapName = false then .error .invalidTap
  else .ok [[lit "ip", lit "link", lit "set", tapName, lit "down"],
            [lit "ip", lit "tuntap", lit "del", lit "dev", tapName, lit "mode", lit "tap"]]

/-- nat-setup TAP_NAME GUEST_IP OUTBOUND_IFACE: validates the TAP name
and the guest IP; OUTBOUND_IFACE is only checked to be non-empty and is
then passed to iptables unvalidated. -/
def natSetup (tapName guestIp outboundIface : Str) : Except GwErr (List (List Str)) :=
  if tapName = [] ∨ guestIp = [] ∨ outboundIface = [] then .error .usage
  else if validateTap tapName = false then .error .invalidTap
  else if validateIp guestIp = false then .error .invalidIp
  else .ok [[lit "sysctl", lit "-w", lit "net.ipv4.ip_forward=1"],
            [lit "iptables", lit "-t", lit "nat", lit "-A", lit "POSTROUTING",
             lit "-o", outboundIface, lit "-s", guestIp, lit "-j", lit "MASQUERADE"],
            [lit "iptables", lit "-A", lit "FORWARD", lit "-i", tapName,
             lit "-o", outboundIface, lit "-j", lit "ACCEPT"],
            [lit "iptables", lit "-A", lit "FORWARD", lit "-i", outboundIface,
             lit "-o", tapName, lit "-m", lit "state", lit "--state",
             lit "RELATED,ESTABLISHED", lit "-j", lit "ACCEPT"]]

/-- nat-teardown TAP_NAME GUEST_IP OUTBOUND_IFACE: same validation as
nat-setup, removes the same three rules. -/
def natTeardown (tapName guestIp outboundIface : Str) : Except GwErr (List (List Str)) :=
  if tapName = [] ∨ guestIp = [] ∨ outboundIface = [] then .error .usage
  else if validateTap tapName = false then .error .invalidTap
  else if validateIp guestIp = false then .error .invalidIp
  else .ok [[lit "iptables", lit "-t", lit "nat", lit "-D", lit "POSTROUTING",
             lit "-o", outboundIface, lit "-s", guestIp, lit "-j", lit "MASQUERADE"],
            [lit "iptables", lit "-D", lit "FORWARD", lit "-i", tapName,
             lit "-o", outboundIface, lit "-j", lit "ACCEPT"],
            [lit "iptables", lit "-D", lit "FORWARD", lit "-i", outboundIface,
             lit "-o", tapName, lit "-m", lit "state", lit "--state",
             lit "RELATED,ESTABLISHED", lit "-j", lit "ACCEPT"]]

/-- port-forward-add HOST_PORT GUEST_IP GUEST_PORT OUTBOUND_IFACE:
validates both ports and the guest IP; OUTBOUND_IFACE is only checked to
be non-empty (and is in fact unused by the rules). -/
def portForwardAdd (hostPort guestIp guestPort outboundIface : Str) :
    Except GwErr (List (List Str)) :=
  if hostPort = [] ∨ guestIp = [] ∨ guestPort = [] ∨ outboundIface = [] then .error .usage
  else if validatePort hostPort = false then .error .invalidPort
  else if validateIp guestIp = false then .error .invalidIp
  else if validatePort guestPort = false then .error .invalidPort
  else .ok [[lit "iptables", lit "-t", lit "nat", lit "-A", lit "PREROUTING",
             lit "-p", lit "tcp", lit "--dport", hostPort, lit "-j", lit "DNAT",
             lit "--to-destination", guestIp ++ ':' :: guestPort],
            [lit "iptables", lit "-t", lit "nat", lit "-A", lit "OUTPUT",
             lit "-p", lit "tcp", lit "--dport", hostPort, lit "-j", lit "DNAT",
             lit "--to-destination", guestIp ++ ':' :: guestPort],
            [lit "iptables", lit "-A", lit "FORWARD", lit "-d", guestIp,
             lit "-p", lit "tcp", lit "--dport", guestPort, lit "-j", lit "ACCEPT"]]

/-- port-forward-del HOST_PORT GUEST_IP GUEST_PORT OUTBOUND_IFACE. -/
def portForwardDel (hostPort guestIp guestPort outboundIface : Str) :
    Except GwErr (List (List Str)) :=
  if hostPort = [] ∨ guestIp = [] ∨ guestPort = [] ∨ outboundIface = [] then .error .usage
  else if validatePort hostPort = false then .error .invalidPort
  else if validateIp guestIp = false then .error .invalidIp
  else if validatePort guestPort = false then .error .invalidPort
  else .ok [[lit "iptables", lit "-t", lit "nat", lit "-D", lit "PREROUTING",
             lit "-p", lit "tcp", lit "--dport", hostPort, lit "-j", lit "DNAT",
             lit "--to-destination", guestIp ++ ':' :: guestPort],
            [lit "iptables", lit "-t", lit "nat", lit "-D", lit "OUTPUT",
             lit "-p", lit "tcp", lit "--dport", hostPort, lit "-j", lit "DNAT",
             lit "--to-destination", guestIp ++ ':' :: guestPort],
            [lit "iptables", lit "-D", lit "FORWARD", lit "-d", guestIp,
             lit "-p", lit "tcp", lit "--dport", guestPort, lit "-j", lit "ACCEPT"]]

/-- kill PID: validates the PID, reads the process's comm name (host
state parameter) and refuses unless it is firecracker. -/
def killGw (pid : Str) (comm : Str) : Except GwErr (List (List Str)) :=
  if pid = [] then .error .usage
  else if validatePid pid = false then .error .invalidPid
  else if comm = lit "firecracker" then .ok [[lit "kill", pid]]
  else .error .notFirecracker

/-- copy-rootfs SRC DST: validates both paths. -/
def copyRootfsGw (src dst : Str) : Except GwErr (List (List Str)) :=
  if src = [] ∨ dst = [] then .error .usage
  else if validatePath src = false then .error .invalidPath
  else if validatePath dst = false then .error .invalidPath
  else .ok [[lit "cp", lit "--reflink=auto", lit "--sparse=always", src, dst]]

/-- Whether a gateway invocation succeeded and one of the host commands
it executed carries the given string as an argument. -/
def usesArg (r : Except GwErr (List (List Str))) (a : Str) : Bool :=
  match r with
  | .ok cmds => cmds.any (fun c => c.any (fun x => x = a))
  | .error _ => false

/-! ### Sandbox instance: exec (FirecrackerSandboxInstance.exec)

The guest daemon interaction is the environment: either the fetch
throws (daemon unreachable, timeout — the catch arm), or an HTTP
response arrives with a status, an error-body text, and, for the ok
case, the outcome of parsing the body as a SandboxExecResult. -/

/-- Result record of exec ({exit_code, stdout, stderr}). -/
structure ExecResult where
  exit_code : Nat
  stdout : Str
  stderr : Str
deriving DecidableEq, Repr

/-- Outcome of the POST to the guest daemon. -/
inductive GuestHttp where
  | unreachable (msg : Str)
  | response (status : Nat) (body : Str) (parsed : Except Str ExecResult)

/-- Whether a fetch Response counts as ok (status 200-299). -/
def responseOk (status : Nat) : Bool := 200 ≤ status && status ≤ 299

/-- FirecrackerSandboxInstance.exec: every guest-side failure is caught
and mapped to a structured result; the function is total — the entire
request/parse sequence sits inside the try whose catch returns a
result. -/
def execModel (r : GuestHttp) : ExecResult :=
  match r with
  | .unreachable msg =>
    { exit_code := 1, stdout := [],
      stderr := lit "Failed to exec in Firecracker VM: " ++ msg }
  | .response status body parsed =>
    if responseOk status then
      match parsed with
      | .ok res => res
      | .error m =>
        { exit_code := 1, stdout := [],
          stderr := lit "Failed to exec in Firecracker VM: " ++ m }
    else
      { exit_code := 1, stdout := [],
        stderr := lit "cmux-sandboxd returned " ++ decDigits status ++ lit ": " ++ body }

/-! ### Sandbox instance: stop (FirecrackerSandboxInstance.stop)

stop's observable behavior is the stopped flag plus the sequence of
cleanup actions it performs; each action's failure is caught, logged,
and does not stop the remaining actions, so failures add log entries
but never remove actions. -/

inductive StopEvent where
  | killHyperv
  | closeProxy (i : Nat)
  | releaseNet
  | unlinkSock
  | logKillErr
  | logProxyErr (i : Nat)
  | logReleaseErr
deriving DecidableEq, Repr

/-- Failure pattern of the cleanup steps of one stop call. -/
structure StopFailures where
  killFails : Bool
  proxyFails : Nat → Bool
  releaseFails : Bool
  unlinkFails : Bool

/-- One call to stop: if the instance is already stopped, return at once
with no actions; otherwise set the flag and run every cleanup step,
each in its own try/catch (socket unlink failures are swallowed without
a log). -/
def stopModel (stopped : Bool) (numProxies : Nat) (f : StopFailures) :
    Bool × List StopEvent :=
  if stopped then (true, [])
  else
    (true,
      ([StopEvent.killHyperv] ++ (if f.killFails then [StopEvent.logKillErr] else [])) ++
      ((List.range numProxies).flatMap fun i =>
        [StopEvent.closeProxy i] ++
          (if f.proxyFails i then [StopEvent.logProxyErr i] else [])) ++
      ([StopEvent.releaseNet] ++ (if f.releaseFails then [StopEvent.logReleaseErr] else [])) ++
      [StopEvent.unlinkSock])

/-! ### Sandbox instance: snapshot (FirecrackerSandboxInstance.snapshot)

Events record which operations were invoked; a Bool per fallible step
says whether it succeeded; a failing step throws, skipping the rest of
the try body, and the finally arm invokes resume whenever the try body
was entered (i.e. whenever pause succeeded). -/

inductive SnapEvent where
  | mkdirSnapDir
  | pauseCall
  | createSnapFiles
  | copyRootfsFile
  | writeMetaFile
  | resumeCall
deriving DecidableEq, Repr

/-- snapshot(id): mkdir, pause, then try (create snapshot files, copy
rootfs, write metadata) finally resume; returns the event list and
whether the call succeeds. -/
def snapshotModel (pauseOk createOk copyOk metaOk : Bool) :
    List SnapEvent × Bool :=
  let pre := [SnapEvent.mkdirSnapDir, SnapEvent.pauseCall]
  if pauseOk = false then (pre, false)
  else
    let body : List SnapEvent × Bool :=
      if createOk = false then ([SnapEvent.createSnapFiles], false)
      else if copyOk = false then
        ([SnapEvent.createSnapFiles, SnapEvent.copyRootfsFile], false)
      else if metaOk = false then
        ([SnapEvent.createSnapFiles, SnapEvent.copyRootfsFile, SnapEvent.writeMetaFile], false)
      else
        ([SnapEvent.createSnapFiles, SnapEvent.copyRootfsFile, SnapEvent.writeMetaFile], true)
    (pre ++ body.1 ++ [SnapEvent.resumeCall], body.2)

/-- Projection of the proxy-close events of a stop trace. -/
def proxyIdxOf (e : StopEvent) : Option Nat :=
  match e with
  | StopEvent.closeProxy i => some i
  | _ => none

/-! ### Orchestrator (startFirecrackerSandbox)

The environment records which prerequisites exist, whether this start is
a snapshot restore, the parse result of metadata.json, and the success
of each fallible step; the model returns the event trace (filesystem,
allocator, gateway and control-plane actions plus rollback log lines)
and the outcome.  Path strings are symbolic: vmDirPath stands for
<snapshotDir>/_running/<vmId>. -/

/-- Snapshot metadata side-file after JSON.parse; each key may be
absent. -/
structure SnapshotMeta where
  originalRootfsPath : Option Str
  tapName : Option Str
  guestIp : Option Str
  guestMac : Option Str
deriving DecidableEq

/-- JavaScript truthiness of an optional string field (undefined and the
empty string are falsy). -/
def isTruthy : Option Str → Bool
  | some s => !s.isEmpty
  | none => false

inductive StartErr where
  | binaryMissing
  | kernelMissing
  | snapshotMissing
  | baseRootfsMissing
  | allocFailed
  | recreateFailed
  | copyFailed
  | spawnFailed
  | socketTimeout
  | loadSnapshotFailed
  | bootConfigFailed
  | proxyFailed
  | healthTimeout
  | sandboxCreateFailed
deriving DecidableEq, Repr

inductive StartEvent where
  | mkVmDir
  | allocTap (t : TapAllocation)
  | releaseTap (t : TapAllocation)
  | logNatTeardownFailed
  | logTapDeleteFailed
  | recreateTap (tn gi gm : Str)
  | copyRootfs (src dst : Str)
  | spawnFc (pid : Nat)
  | waitSocket
  | loadSnap
  | configureBoot
  | proxies
  | health
  | createSandbox
  | killFc (pid : Nat)
  | logKillFailed
  | unlinkSocket
  | rmVmDir
deriving DecidableEq, Repr

/-- Per-start environment and step-failure pattern. -/
structure StartEnv where
  binaryExists : Bool
  kernelExists : Bool
  baseRootfsExists : Bool
  snapshotId : Option Str
  snapshotBinExists : Bool
  metadata : Option SnapshotMeta
  freshTap : TapAllocation
  allocOk : Bool
  recreateOk : Bool
  copyOk : Bool
  spawnOk : Bool
  spawnPid : Nat
  socketOk : Bool
  loadOk : Bool
  bootOk : Bool
  proxyOk : Bool
  healthOk : Bool
  sandboxOk : Bool
  killOk : Bool
  natTeardownOk : Bool
  tapDeleteOk : Bool

/-- Value returned on success (the parts the claims observe: which tap
the instance owns and the hypervisor pid). -/
structure StartResult where
  tap : TapAllocation
  pid : Nat
deriving DecidableEq

/-- Symbolic VM working directory <snapshotDir>/_running/<vmId>. -/
def vmDirPath : Str := lit "SNAPDIR/_running/VMID"

/-- Default rootfs location inside the VM working directory. -/
def defaultVmRootfs : Str := vmDirPath ++ lit "/rootfs.ext4"

/-- Snapshot directory <snapshotDir>/<snapshotId>. -/
def snapDirPath (sid : Str) : Str := lit "SNAPDIR/" ++ sid

/-- rootfs.ext4 inside a snapshot directory. -/
def snapshotRootfsPath (sid : Str) : Str := snapDirPath sid ++ lit "/rootfs.ext4"

/-- Symbolic base rootfs image path. -/
def baseRootfsPath : Str := lit "BASEDIR/cmux-base.ext4"

/-- releaseTap: best-effort NAT teardown (failure logged), best-effort
TAP delete (failure logged), then the index is removed; it never
throws. -/
def releaseTapEvents (t : TapAllocation) (natOk tapOk : Bool) : List StartEvent :=
  [StartEvent.releaseTap t] ++
  (if natOk then [] else [StartEvent.logNatTeardownFailed]) ++
  (if tapOk then [] else [StartEvent.logTapDeleteFailed])

/-- Observable state of the try body when it finishes or throws: its
events, the fcPid variable (set only once spawn succeeded), the current
value of the tap variable, and the outcome. -/
structure BodyOut where
  events : List StartEvent
  fcPid : Option Nat
  tap : TapAllocation
  outcome : Except StartErr StartResult

/-- Suffix common to both branches: start port proxies, wait for guest
health, create the guest-side sandbox. -/
def commonTail (env : StartEnv) (evs : List StartEvent) (pid : Nat)
    (tap : TapAllocation) : BodyOut :=
  if env.proxyOk = false then
    { events := evs ++ [StartEvent.proxies], fcPid := some pid, tap := tap,
      outcome := .error .proxyFailed }
  else if env.healthOk = false then
    { events := evs ++ [StartEvent.proxies, StartEvent.health], fcPid := some pid,
      tap := tap, outcome := .error .healthTimeout }
  else if env.sandboxOk = false then
    { events := evs ++ [StartEvent.proxies, StartEvent.health, StartEvent.createSandbox],
      fcPid := some pid, tap := tap, outcome := .error .sandboxCreateFailed }
  else
    { events := evs ++ [StartEvent.proxies, StartEvent.health, StartEvent.createSandbox],
      fcPid := some pid, tap := tap, outcome := .ok { tap := tap, pid := pid } }

/-- Rest of the snapshot-restore branch after the network decision:
copy the snapshot rootfs to the path the snapshot expects (the recorded
original path, else the default inside the VM directory), spawn, wait
for the control socket, load the snapshot with resume, then the common
tail. -/
def restoreRest (env : StartEnv) (sid : Str) (evs0 : List StartEvent)
    (tap : TapAllocation) (origPath : Option Str) : BodyOut :=
  let vmRootfs := origPath.getD defaultVmRootfs
  let evs1 := evs0 ++ [StartEvent.copyRootfs (snapshotRootfsPath sid) vmRootfs]
  if env.copyOk = false then
    { events := evs1, fcPid := none, tap := tap, outcome := .error .copyFailed }
  else if env.spawnOk = false then
    { events := evs1, fcPid := none, tap := tap, outcome := .error .spawnFailed }
  else
    let evs2 := evs1 ++ [StartEvent.spawnFc env.spawnPid]
    if env.socketOk = false then
      { events := evs2 ++ [StartEvent.waitSocket], fcPid := some env.spawnPid,
        tap := tap, outcome := .error .socketTimeout }
    else if env.loadOk = false then
      { events := evs2 ++ [StartEvent.waitSocket, StartEvent.loadSnap],
        fcPid := some env.spawnPid, tap := tap, outcome := .error .loadSnapshotFailed }
    else
      commonTail env (evs2 ++ [StartEvent.waitSocket, StartEvent.loadSnap])
        env.spawnPid tap

/-- Fresh-boot branch: check the base rootfs (only here!), copy it to
the default path, spawn, wait for the socket, push the boot/drive/
machine/network configuration, then the common tail. -/
def freshRest (env : StartEnv) (tap0 : TapAllocation) : BodyOut :=
  if env.baseRootfsExists = false then
    { events := [], fcPid := none, tap := tap0, outcome := .error .baseRootfsMissing }
  else
    let evs1 := [StartEvent.copyRootfs baseRootfsPath defaultVmRootfs]
    if env.copyOk = false then
      { events := evs1, fcPid := none, tap := tap0, outcome := .error .copyFailed }
    else if env.spawnOk = false then
      { events := evs1, fcPid := none, tap := tap0, outcome := .error .spawnFailed }
    else
      let evs2 := evs1 ++ [StartEvent.spawnFc env.spawnPid]
      if env.socketOk = false then
        { events := evs2 ++ [StartEvent.waitSocket], fcPid := some env.spawnPid,
          tap := tap0, outcome := .error .socketTimeout }
      else if env.bootOk = false then
        { events := evs2 ++ [StartEvent.waitSocket, StartEvent.configureBoot],
          fcPid := some env.spawnPid, tap := tap0, outcome := .error .bootConfigFailed }
      else
        commonTail env (evs2 ++ [StartEvent.waitSocket, StartEvent.configureBoot])
          env.spawnPid tap0

/-- The try body of startFirecrackerSandbox.  On restore: require
snapshot.bin; read metadata (a parse failure yields the empty object);
when all three network keys are truthy, release the fresh tap and
recreate the snapshot's tap — on recreate failure the tap variable still
holds the (already released) fresh tap; then the branch rest. -/
def startBody (env : StartEnv) (tap0 : TapAllocation) : BodyOut :=
  match env.snapshotId with
  | some sid =>
    if env.snapshotBinExists = false then
      { events := [], fcPid := none, tap := tap0, outcome := .error .snapshotMissing }
    else
      let meta := env.metadata.getD
        ({ originalRootfsPath := none, tapName := none,
           guestIp := none, guestMac := none })
      if isTruthy meta.tapName && isTruthy meta.guestIp && isTruthy meta.guestMac then
        let tn := meta.tapName.getD []
        let gi := meta.guestIp.getD []
        let gm := meta.guestMac.getD []
        let evRel := releaseTapEvents tap0 env.natTeardownOk env.tapDeleteOk
        match parseTapIdx tn with
        | none =>
          { events := evRel, fcPid := none, tap := tap0, outcome := .error .recreateFailed }
        | some idx =>
          if env.recreateOk = false then
            { events := evRel ++ [StartEvent.recreateTap tn gi gm], fcPid := none,
              tap := tap0, outcome := .error .recreateFailed }
          else
            restoreRest env sid (evRel ++ [StartEvent.recreateTap tn gi gm])
              (recreatedAllocation tn gi gm idx) meta.originalRootfsPath
      else
        restoreRest env sid [] tap0 meta.originalRootfsPath
  | none => freshRest env tap0

/-- The catch block: kill the hypervisor if it was spawned (failure
logged), release the current tap (releaseTap never throws; its internal
gateway failures are logged), unlink the control socket and remove the
VM directory (failures of these two are silently swallowed, so they add
no events and never stop the sequence). -/
def rollbackEvents (env : StartEnv) (fcPid : Option Nat) (tap : TapAllocation) :
    List StartEvent :=
  (match fcPid with
   | some p => [StartEvent.killFc p] ++ (if env.killOk then [] else [StartEvent.logKillFailed])
   | none => []) ++
  releaseTapEvents tap env.natTeardownOk env.tapDeleteOk ++
  [StartEvent.unlinkSocket, StartEvent.rmVmDir]

/-- startFirecrackerSandbox: binary and kernel prerequisite checks, then
VM directory creation, then network allocation (outside the try block),
then the try body with its catch-rollback. -/
def startModel (env : StartEnv) : List StartEvent × Except StartErr StartResult :=
  if env.binaryExists = false then ([], .error .binaryMissing)
  else if env.kernelExists = false then ([], .error .kernelMissing)
  else
    let ev0 := [StartEvent.mkVmDir]
    if env.allocOk = false then (ev0, .error .allocFailed)
    else
      let ev1 := ev0 ++ [StartEvent.allocTap env.freshTap]
      let b := startBody env env.freshTap
      match b.outcome with
      | .ok res => (ev1 ++ b.events, .ok res)
      | .error e => (ev1 ++ b.events ++ rollbackEvents env b.fcPid b.tap, .error e)

/-- Concrete environment whose network allocation fails on a fresh
boot. -/
def allocFailEnv : StartEnv :=
  { binaryExists := true, kernelExists := true, baseRootfsExists := true,
    snapshotId := none, snapshotBinExists := false, metadata := none,
    freshTap := deriveAllocation 0, allocOk := false, recreateOk := true,
    copyOk := true, spawnOk := true, spawnPid := 1234, socketOk := true,
    loadOk := true, bootOk := true, proxyOk := true, healthOk := true,
    sandboxOk := true, killOk := true, natTeardownOk := true,
    tapDeleteOk := true }

/-- Concrete environment whose boot configuration fails after a
successful spawn, with a failing (hence logged) rollback kill. -/
def bootFailEnv : StartEnv :=
  { binaryExists := true, kernelExists := true, baseRootfsExists := true,
    snapshotId := none, snapshotBinExists := false, metadata := none,
    freshTap := deriveAllocation 0, allocOk := true, recreateOk := true,
    copyOk := true, spawnOk := true, spawnPid := 4321, socketOk := true,
    loadOk := true, bootOk := false, proxyOk := true, healthOk := true,
    sandboxOk := true, killOk := false, natTeardownOk := true,
    tapDeleteOk := true }

/-- Concrete fresh-boot environment with binary and kernel present but
the base rootfs missing. -/
def noRootfsEnv : StartEnv :=
  { binaryExists := true, kernelExists := true, baseRootfsExists := false,
    snapshotId := none, snapshotBinExists := false, metadata := none,
    freshTap := deriveAllocation 0, allocOk := true, recreateOk := true,
    copyOk := true, spawnOk := true, spawnPid := 1234, socketOk := true,
    loadOk := true, bootOk := true, proxyOk := true, healthOk := true,
    sandboxOk := true, killOk := true, natTeardownOk := true,
    tapDeleteOk := true }

/-- Concrete environment with the hypervisor binary missing. -/
def noBinaryEnv : StartEnv :=
  { binaryExists := false, kernelExists := true, baseRootfsExists := true,
    snapshotId := none, snapshotBinExists := false, metadata := none,
    freshTap := deriveAllocation 0, allocOk := true, recreateOk := true,
    copyOk := true, spawnOk := true, spawnPid := 1234, socketOk := true,
    loadOk := true, bootOk := true, proxyOk := true, healthOk := true,
    sandboxOk := true, killOk := true, natTeardownOk := true,
    tapDeleteOk := true }

/-- Concrete restore environment: snapshot.bin present, metadata.json
missing/unparsable, every subsequent step succeeding. -/
def noMetadataEnv : StartEnv :=
  { binaryExists := true, kernelExists := true, baseRootfsExists := true,
    snapshotId := some (lit "snap1"), snapshotBinExists := true, metadata := none,
    freshTap := deriveAllocation 0, allocOk := true, recreateOk := true,
    copyOk := true, spawnOk := true, spawnPid := 77, socketOk := true,
    loadOk := true, bootOk := true, proxyOk := true, healthOk := true,
    sandboxOk := true, killOk := true, natTeardownOk := true,
    tapDeleteOk := true }

/-- C1 (counterexample): the claim quantifies over every sequence of
allocateTap/recreateTap/releaseTap calls, but recreateTap reserves its
parsed index unconditionally, so after allocateTap() followed by
recreateTap("fc_tap0", "172.16.0.2", mac) — both succeeding — two
simultaneously-live allocations share subnetIndex 0. -/
theorem C1_counterexample :
    ((runTrace ∅ [AllocOp.alloc true,
        AllocOp.recreate (tapNameOf 0) (guestIpOf 0) (generateMac 0) true]).live.map
      (fun a => a.subnetIndex)) = [0, 0] := by decide

/-- C2 (counterexample): not every argument is validated before use —
nat-setup accepts an outbound-interface argument containing ';' and
whitespace (one that fails every validator in the script) and passes it
straight to iptables. -/
theorem C2_counterexample :
    usesArg (natSetup (lit "fc_tap0") (lit "172.16.0.2") (lit "; rm -rf /"))
        (lit "; rm -rf /") = true ∧
    validatePath (lit "; rm -rf /") = false ∧
    validateTap (lit "; rm -rf /") = false ∧
    validateIp (lit "; rm -rf /") = false ∧
    validatePort (lit "; rm -rf /") = false ∧
    (tapCreate (lit "fc_tap0") (lit "172.16.0.1") (lit "3; evil")).isOk = true ∧
    isDigitRun (lit "3; evil") = false := by
  decide

/-- C2 (amended): every interface-name, IP, port, PID and path argument
of every gateway subcommand is validated against its strict pattern
before any host command runs (a successful dispatch implies the
corresponding validator accepted each such argument); the prefix-length
and outbound-interface arguments are only checked to be non-empty; and
the validators reject a TAP name containing ';', the non-dotted-quad IP
10.0.0.0/8, port 70000, and the path ../../etc/passwd. -/
theorem C2_argument_validation :
    (∀ a b e cmds, spawnGw a b e = .ok cmds →
      validatePath a = true ∧ validatePath b = true) ∧
    (∀ t h p cmds, tapCreate t h p = .ok cmds →
      validateTap t = true ∧ validateIp h = true) ∧
    (∀ t cmds, tapDelete t = .ok cmds → validateTap t = true) ∧
    (∀ t g i cmds, natSetup t g i = .ok cmds →
      validateTap t = true ∧ validateIp g = true) ∧
    (∀ t g i cmds, natTeardown t g i = .ok cmds →
      validateTap t = true ∧ validateIp g = true) ∧
    (∀ hp g gp i cmds, portForwardAdd hp g gp i = .ok cmds →
      validatePort hp = true ∧ validateIp g = true ∧ validatePort gp = true) ∧
    (∀ hp g gp i cmds, portForwardDel hp g gp i = .ok cmds →
      validatePort hp = true ∧ validateIp g = true ∧ validatePort gp = true) ∧
    (∀ p c cmds, killGw p c = .ok cmds → validatePid p = true) ∧
    (∀ s d cmds, copyRootfsGw s d = .ok cmds →
      validatePath s = true ∧ validatePath d = true) ∧
    validateTap (lit "fc;tap0") = false ∧
    validateIp (lit "10.0.0.0/8") = false ∧
    validatePort (lit "70000") = false ∧
    validatePath (lit "../../etc/passwd") = false := by
  refine ⟨?_, ?_, ?_, ?_, ?_, ?_, ?_, ?_, ?_, by decide, by decide, by decide, by decide⟩
  · intro a b e cmds hc
    unfold spawnGw at hc
    split at hc
    · exact absurd hc (by simp)
    · split at hc
      · exact absurd hc (by simp)
      · split at hc
        · exact absurd hc (by simp)
        · split at hc
          · exact absurd hc (by simp)
          · simp_all
  · intro t h p cmds hc
    unfold tapCreate at hc
    split at hc
    · exact absurd hc (by simp)
    · split at hc
      · exact absurd hc (by simp)
      · split at hc
        · exact absurd hc (by simp)
        · simp_all
  · intro t cmds hc
    unfold tapDelete at hc
    split at hc
    · exact absurd hc (by simp)
    · split at hc
      · exact absurd hc (by simp)
      · simp_all
  · intro t g i cmds hc
    unfold natSetup at hc
    split at hc
    · exact absurd hc (by simp)
    · split at hc
      · exact absurd hc (by simp)
      · split at hc
        · exact absurd hc (by simp)
        · simp_all
  · intro t g i cmds hc
    unfold natTeardown at hc
    split at hc
    · exact absurd hc (by simp)
    · split at hc
      · exact absurd hc (by simp)
      · split at hc
        · exact absurd hc (by simp)
        · simp_all
  · intro hp g gp i cmds hc
    unfold portForwardAdd at hc
    split at hc
    · exact absurd hc (by simp)
    · split at hc
      · exact absurd hc (by simp)
      · split at hc
        · exact absurd hc (by simp)
        · split at hc
          · exact absurd hc (by simp)
          · simp_all
  · intro hp g gp i cmds hc
    unfold portForwardDel at hc
    split at hc
    · exact absurd hc (by simp)
    · split at hc
      · exact absurd hc (by simp)
      · split at hc
        · exact absurd hc (by simp)
        · split at hc
          · exact absurd hc (by simp)
          · simp_all
  · intro p c cmds hc
    unfold killGw at hc
    split at hc
    · exact absurd hc (by simp)
    · split at hc
      · exact absurd hc (by simp)
      · split at hc
        · simp_all
        · exact absurd hc (by simp)
  · intro s d cmds hc
    unfold copyRootfsGw at hc
    split at hc
    · exact absurd hc (by simp)
    · split at hc
      · exact absurd hc (by simp)
      · split at hc
        · exact absurd hc (by simp)
        · simp_all

/-- C4: exec maps every guest-side failure — daemon unreachable (fetch
threw) or a non-2xx answer — to a structured result with exit code 1,
empty stdout and non-empty stderr; execModel is a total function (the
whole request sits inside the try whose catch returns a result), so no
guest-side failure throws. -/
theorem C4_exec_guest_failures (r : GuestHttp) :
    (∀ msg, r = GuestHttp.unreachable msg →
      (execModel r).exit_code = 1 ∧ (execModel r).stdout = [] ∧
        (execModel r).stderr ≠ []) ∧
    (∀ status body parsed, r = GuestHttp.response status body parsed →
      responseOk status = false →
      (execModel r).exit_code = 1 ∧ (execModel r).stdout = [] ∧
        (execModel r).stderr ≠ []) := by
  constructor
  · intro msg hr
    subst hr
    refine ⟨rfl, rfl, ?_⟩
    intro h
    rw [show (execModel (GuestHttp.unreachable msg)).stderr =
          lit "Failed to exec in Firecracker VM: " ++ msg from rfl,
        List.append_eq_nil] at h
    exact absurd h.1 (by decide)
  · intro status body parsed hr hok
    subst hr
    have hred : execModel (GuestHttp.response status body parsed) =
        { exit_code := 1, stdout := [],
          stderr := lit "cmux-sandboxd returned " ++ decDigits status ++
            lit ": " ++ body } := by
      simp [execModel, hok]
    rw [hred]
    refine ⟨rfl, rfl, ?_⟩
    intro h
    simp only [List.append_eq_nil, and_assoc] at h
    exact absurd h.1 (by decide)

/-- C6: snapshot runs pause, create snapshot files, copy rootfs, write
metadata, resume in that order (every trace is a sublist of the full
in-order trace), and whenever pause succeeded, resume is invoked — and
is the last event — no matter which later step fails. -/
theorem C6_snapshot_order (p c u m : Bool) :
    (snapshotModel true true true true).1 =
      [SnapEvent.mkdirSnapDir, SnapEvent.pauseCall, SnapEvent.createSnapFiles,
       SnapEvent.copyRootfsFile, SnapEvent.writeMetaFile, SnapEvent.resumeCall] ∧
    List.Sublist (snapshotModel p c u m).1
      [SnapEvent.mkdirSnapDir, SnapEvent.pauseCall, SnapEvent.createSnapFiles,
       SnapEvent.copyRootfsFile, SnapEvent.writeMetaFile, SnapEvent.resumeCall] ∧
    (p = true → SnapEvent.resumeCall ∈ (snapshotModel p c u m).1 ∧
      (snapshotModel p c u m).1.getLast? = some SnapEvent.resumeCall) := by
  revert p c u m
  decide

/-- C3 (counterexample): an error raised by the network allocation
itself occurs after the VM working directory has been created (partial
resource acquisition) but outside the try block, so no rollback runs and
in particular the working directory is never deleted. -/
theorem C3_counterexample :
    (startModel allocFailEnv).2 = .error .allocFailed ∧
    StartEvent.mkVmDir ∈ (startModel allocFailEnv).1 ∧
    StartEvent.rmVmDir ∉ (startModel allocFailEnv).1 := by
  refine ⟨rfl, by decide, by decide⟩

/-- C9 (counterexample): the missing-base-rootfs prerequisite error is
raised only inside the fresh-boot branch of the try block, after the VM
directory has been created and the network allocation made — not before
any resource is allocated as the claim states. -/
theorem C9_counterexample :
    (startModel noRootfsEnv).2 = .error .baseRootfsMissing ∧
    StartEvent.mkVmDir ∈ (startModel noRootfsEnv).1 ∧
    StartEvent.allocTap (deriveAllocation 0) ∈ (startModel noRootfsEnv).1 := by
  refine ⟨rfl, by decide, by decide⟩

/-- C9 (amended): the missing-binary and missing-kernel prerequisite
errors are surfaced before any resource is acquired (empty trace: no VM
directory, no network allocation); the missing-base-rootfs error is
surfaced only after the VM directory is created and the network
allocation made, and triggers the rollback (the directory is deleted
again). -/
theorem C9_prerequisite_order :
    (∀ env : StartEnv, env.binaryExists = false →
      startModel env = ([], .error .binaryMissing)) ∧
    (∀ env : StartEnv, env.binaryExists = true → env.kernelExists = false →
      startModel env = ([], .error .kernelMissing)) ∧
    (∀ env : StartEnv, env.binaryExists = true → env.kernelExists = true →
      env.allocOk = true → env.snapshotId = none → env.baseRootfsExists = false →
      (startModel env).2 = .error .baseRootfsMissing ∧
      StartEvent.mkVmDir ∈ (startModel env).1 ∧
      StartEvent.allocTap env.freshTap ∈ (startModel env).1 ∧
      StartEvent.rmVmDir ∈ (startModel env).1) := by
  refine ⟨?_, ?_, ?_⟩
  · intro env h
    rw [startModel]
    simp [h]
  · intro env h1 h2
    rw [startModel]
    simp [h1, h2]
  · intro env h1 h2 h3 h4 h5
    have hb : startBody env env.freshTap =
        { events := [], fcPid := none, tap := env.freshTap,
          outcome := .error .baseRootfsMissing } := by
      rw [startBody.eq_def, h4]
      rw [freshRest]
      simp [h5]
    rw [startModel]
    simp only [h1, h2, h3, hb]
    refine ⟨by simp, by simp, by simp, ?_⟩
    simp [rollbackEvents, releaseTapEvents]

/-- C10: on a snapshot restore whose directory has snapshot.bin but
whose metadata.json is missing or unparsable, the start succeeds — the
metadata read is not an error — keeping the freshly allocated TAP (no
release of it and no recreateTap happens), and the snapshot rootfs is
copied to the default path inside the VM working directory. -/
theorem C10_restore_without_metadata (env : StartEnv) (sid : Str)
    (h1 : env.binaryExists = true) (h2 : env.kernelExists = true)
    (h3 : env.allocOk = true) (h4 : env.snapshotId = some sid)
    (h5 : env.snapshotBinExists = true) (h6 : env.metadata = none)
    (h7 : env.copyOk = true) (h8 : env.spawnOk = true) (h9 : env.socketOk = true)
    (h10 : env.loadOk = true) (h11 : env.proxyOk = true) (h12 : env.healthOk = true)
    (h13 : env.sandboxOk = true) :
    (startModel env).2 = .ok { tap := env.freshTap, pid := env.spawnPid } ∧
    StartEvent.copyRootfs (snapshotRootfsPath sid) defaultVmRootfs ∈ (startModel env).1 ∧
    (∀ tn gi gm, StartEvent.recreateTap tn gi gm ∉ (startModel env).1) ∧
    (∀ t, StartEvent.releaseTap t ∉ (startModel env).1) := by
  have hb : startBody env env.freshTap =
      { events := [StartEvent.copyRootfs (snapshotRootfsPath sid) defaultVmRootfs,
          StartEvent.spawnFc env.spawnPid, StartEvent.waitSocket, StartEvent.loadSnap,
          StartEvent.proxies, StartEvent.health, StartEvent.createSandbox],
        fcPid := some env.spawnPid, tap := env.freshTap,
        outcome := .ok { tap := env.freshTap, pid := env.spawnPid } } := by
    rw [startBody.eq_def, h4]
    simp only [h5, h6]
    rw [Option.getD]
    simp only [isTruthy, Bool.false_and, Bool.and_false]
    rw [restoreRest]
    simp [h7, h8, h9, h10, commonTail, h11, h12, h13]
  have hs : startModel env =
      ([StartEvent.mkVmDir, StartEvent.allocTap env.freshTap,
        StartEvent.copyRootfs (snapshotRootfsPath sid) defaultVmRootfs,
        StartEvent.spawnFc env.spawnPid, StartEvent.waitSocket, StartEvent.loadSnap,
        StartEvent.proxies, StartEvent.health, StartEvent.createSandbox],
       .ok { tap := env.freshTap, pid := env.spawnPid }) := by
    rw [startModel]
    simp [h1, h2, h3, hb]
  rw [hs]
  refine ⟨rfl, by simp, ?_, ?_⟩
  · intro tn gi gm
    simp
  · intro t
    simp

theorem decDigitsF_fuel_irrel :
    ∀ f1 f2 n, n < f1 → n < f2 → decDigitsF f1 n = decDigitsF f2 n := by
  intro f1
  induction f1 with
  | zero => intro f2 n h; omega
  | succ f1 ih =>
    intro f2 n h1 h2
    cases f2 with
    | zero => omega
    | succ f2 =>
      rw [decDigitsF, decDigitsF]
      by_cases h10 : n < 10
      · rw [if_pos h10, if_pos h10]
      · rw [if_neg h10, if_neg h10]
        have hd : n / 10 < n := Nat.div_lt_self (by omega) (by omega)
        rw [ih f2 (n / 10) (by omega) (by omega)]

/-- Recursion equation of decDigits matching the source rendering. -/
theorem decDigits_eq (n : Nat) :
    decDigits n =
      if n < 10 then [Nat.digitChar n]
      else decDigits (n / 10) ++ [Nat.digitChar (n % 10)] := by
  show decDigitsF (n + 1) n = _
  rw [decDigitsF]
  by_cases h10 : n < 10
  · rw [if_pos h10, if_pos h10]
  · rw [if_neg h10, if_neg h10]
    have hd : n / 10 < n := Nat.div_lt_self (by omega) (by omega)
    rw [decDigitsF_fuel_irrel n (n / 10 + 1) (n / 10) (by omega) (by omega)]
    rfl

theorem decDigits_ne_nil (n : Nat) : decDigits n ≠ [] := by
  rw [decDigits_eq]
  split <;> simp

theorem decDigits_all_digit (n : Nat) : (decDigits n).all Char.isDigit = true := by
  induction n using Nat.strong_induction_on with
  | _ n ih =>
    rw [decDigits_eq]
    split
    · next h =>
      have : ∀ m < 10, (Nat.digitChar m).isDigit = true := by decide
      simp [this n h]
    · next h =>
      have hrec := ih (n / 10) (Nat.div_lt_self (by omega) (by omega))
      have hd : ∀ m < 10, (Nat.digitChar m).isDigit = true := by decide
      simp only [List.all_append, List.all_cons, List.all_nil, Bool.and_true,
        Bool.and_eq_true]
      exact ⟨hrec, hd (n % 10) (Nat.mod_lt _ (by omega))⟩

theorem parseDigits_from (a : Nat) (ds : List Char) :
    ds.foldl (fun x c => x * 10 + digitVal c) a =
      a * 10 ^ ds.length + parseDigits ds := by
  induction ds generalizing a with
  | nil => simp [parseDigits]
  | cons c t ih =>
    simp only [List.foldl_cons, parseDigits] at *
    rw [ih (a * 10 + digitVal c), ih (0 * 10 + digitVal c)]
    simp [List.length_cons, pow_succ]
    ring

theorem parseDigits_decDigits (n : Nat) : parseDigits (decDigits n) = n := by
  induction n using Nat.strong_induction_on with
  | _ n ih =>
    rw [decDigits_eq]
    split
    · next h =>
      have : ∀ m < 10, parseDigits [Nat.digitChar m] = m := by decide
      exact this n h
    · next h =>
      have hrec := ih (n / 10) (Nat.div_lt_self (by omega) (by omega))
      have hdig : ∀ m < 10, digitVal (Nat.digitChar m) = m := by decide
      simp only [parseDigits, List.foldl_append, List.foldl_cons, List.foldl_nil]
      rw [show (decDigits (n / 10)).foldl (fun x c => x * 10 + digitVal c) 0 =
            parseDigits (decDigits (n / 10)) from rfl, hrec,
          hdig (n % 10) (Nat.mod_lt _ (by omega))]
      omega

theorem decDigits_injective : Function.Injective decDigits := by
  intro a b h
  have := parseDigits_decDigits a
  rw [h, parseDigits_decDigits] at this
  omega

theorem takeWhile_all_eq {p : Char → Bool} :
    ∀ l : List Char, l.all p = true → l.takeWhile p = l := by
  intro l hl
  induction l with
  | nil => rfl
  | cons c t ih =>
    simp only [List.all_cons, Bool.and_eq_true] at hl
    simp [List.takeWhile_cons, hl.1, ih hl.2]

theorem findTapMatch_tapNameOf (idx : Nat) :
    findTapMatch (tapNameOf idx) = some (decDigits idx) := by
  have hall := decDigits_all_digit idx
  have hne := decDigits_ne_nil idx
  have htake : (tapNameOf idx).take 6 = ['f', 'c', '_', 't', 'a', 'p'] := by
    have : tapNameOf idx = 'f' :: 'c' :: '_' :: 't' :: 'a' :: 'p' :: decDigits idx := rfl
    rw [this]
    simp [List.take_succ_cons]
  have hdrop : (tapNameOf idx).drop 6 = decDigits idx := by
    have : tapNameOf idx = 'f' :: 'c' :: '_' :: 't' :: 'a' :: 'p' :: decDigits idx := rfl
    rw [this]
    simp [List.drop_succ_cons]
  have hcons : tapNameOf idx = 'f' :: (String.data "c_tap" ++ decDigits idx) := rfl
  rw [hcons, findTapMatch]
  rw [← hcons]
  simp only [htake, hdrop, if_pos rfl, takeWhile_all_eq _ hall]
  simp [hne]

theorem parseTapIdx_tapNameOf (idx : Nat) : parseTapIdx (tapNameOf idx) = some idx := by
  simp [parseTapIdx, findTapMatch_tapNameOf, parseDigits_decDigits]

theorem tapNameOf_injective : Function.Injective tapNameOf := by
  intro a b h
  have := List.append_cancel_left h
  exact decDigits_injective this

/-- Splitting at the first dot: a run of digit characters followed by a dot
determines the split uniquely. -/
theorem digits_dot_split :
    ∀ (a a' b b' : List Char), a.all Char.isDigit = true → a'.all Char.isDigit = true →
      a ++ '.' :: b = a' ++ '.' :: b' → a = a' ∧ b = b' := by
  intro a
  induction a with
  | nil =>
    intro a' b b' _ ha' h
    cases a' with
    | nil => simpa using h
    | cons c t =>
      simp only [List.nil_append, List.cons_append, List.cons.injEq] at h
      simp only [List.all_cons, Bool.and_eq_true] at ha'
      rw [← h.1] at ha'
      simp at ha'
  | cons c t ih =>
    intro a' b b' ha ha' h
    cases a' with
    | nil =>
      simp only [List.cons_append, List.nil_append, List.cons.injEq] at h
      simp only [List.all_cons, Bool.and_eq_true] at ha
      rw [h.1] at ha
      simp at ha
    | cons c' t' =>
      simp only [List.cons_append, List.cons.injEq] at h
      simp only [List.all_cons, Bool.and_eq_true] at ha ha'
      obtain ⟨ht, hb⟩ := ih t' b b' ha.2 ha'.2 h.2
      exact ⟨by rw [h.1, ht], hb⟩

theorem ipStr_injective (o2 o3 o2' o3' : Nat) (h : ipStr o2 o3 = ipStr o2' o3') :
    o2 = o2' ∧ o3 = o3' := by
  unfold ipStr at h
  rw [List.append_assoc, List.append_assoc] at h
  have h2 := List.append_cancel_left h
  obtain ⟨hd, he⟩ := digits_dot_split _ _ _ _
    (decDigits_all_digit o2) (decDigits_all_digit o2') h2
  exact ⟨decDigits_injective hd, decDigits_injective he⟩

theorem guestIpOf_inj_lt (a b : Nat) (ha : a < 16384) (hb : b < 16384)
    (h : guestIpOf a = guestIpOf b) : a = b := by
  obtain ⟨h2, h3⟩ := ipStr_injective _ _ _ _ h
  simp only [octet2Of, octet3Of] at h2 h3
  have ha4 : a * 4 < 65536 := by omega
  have hb4 : b * 4 < 65536 := by omega
  have hda : a * 4 / 256 < 256 := by omega
  have hdb : b * 4 / 256 < 256 := by omega
  rw [Nat.mod_eq_of_lt hda, Nat.mod_eq_of_lt hdb] at h2
  have hra := Nat.div_add_mod (a * 4) 256
  have hrb := Nat.div_add_mod (b * 4) 256
  omega

theorem lowestFreeFrom_spec (r : Finset Nat) :
    ∀ fuel idx j, idx < 16384 → lowestFreeFrom r idx fuel = some j →
      j ∉ r ∧ j < 16384 := by
  intro fuel
  induction fuel with
  | zero => intro idx j _ h; simp [lowestFreeFrom] at h
  | succ fuel ih =>
    intro idx j hidx h
    rw [lowestFreeFrom] at h
    by_cases hm : idx ∈ r
    · rw [if_pos hm] at h
      by_cases hb : idx + 1 ≥ 16384
      · rw [if_pos hb] at h; exact absurd h (by simp)
      · rw [if_neg hb] at h
        exact ih (idx + 1) j (by omega) h
    · rw [if_neg hm] at h
      simp only [Option.some.injEq] at h
      exact ⟨h ▸ hm, h ▸ hidx⟩

theorem findFreeIdx_spec (r : Finset Nat) (j : Nat) (h : findFreeIdx r = some j) :
    j ∉ r ∧ j < 16384 :=
  lowestFreeFrom_spec r 16384 0 j (by omega) h

theorem allocStep_preserves_inv (s : AllocState) (op : AllocOp)
    (hinv : AllocInv s) (hwf : wfOp s op) : AllocInv (allocStep s op) := by
  obtain ⟨hall, hpw⟩ := hinv
  cases op with
  | alloc gwOk =>
    rw [allocStep]
    cases hf : findFreeIdx s.reserved with
    | none => exact ⟨hall, hpw⟩
    | some idx =>
      obtain ⟨hnotin, hlt⟩ := findFreeIdx_spec s.reserved idx hf
      cases gwOk with
      | true =>
        simp only [if_pos]
        constructor
        · intro a ha
          rw [List.mem_append] at ha
          cases ha with
          | inl ha =>
            obtain ⟨h1, h2, h3, h4⟩ := hall a ha
            exact ⟨h1, h2, h3, Finset.mem_insert_of_mem h4⟩
          | inr ha =>
            simp only [List.mem_singleton] at ha
            subst ha
            exact ⟨hlt, rfl, rfl, Finset.mem_insert_self _ _⟩
        · rw [List.pairwise_append]
          refine ⟨hpw, List.pairwise_singleton _ _, ?_⟩
          intro a ha b hb
          simp only [List.mem_singleton] at hb
          subst hb
          intro he
          have hidx : a.subnetIndex = idx := he
          exact hnotin (hidx ▸ (hall a ha).2.2.2)
      | false =>
        simp only [Bool.false_eq_true, if_neg, if_false]
        constructor
        · intro a ha
          obtain ⟨h1, h2, h3, h4⟩ := hall a ha
          refine ⟨h1, h2, h3, Finset.mem_erase.mpr ⟨?_, Finset.mem_insert_of_mem h4⟩⟩
          intro he
          exact hnotin (he ▸ h4)
        · exact hpw
  | recreate tn gi gm gwOk =>
    obtain ⟨idx, hlt, htn, hgi, hfresh⟩ := hwf
    rw [allocStep]
    rw [htn, parseTapIdx_tapNameOf]
    cases gwOk with
    | true =>
      simp only [if_pos]
      constructor
      · intro a ha
        rw [List.mem_append] at ha
        cases ha with
        | inl ha =>
          obtain ⟨h1, h2, h3, h4⟩ := hall a ha
          exact ⟨h1, h2, h3, Finset.mem_insert_of_mem h4⟩
        | inr ha =>
          simp only [List.mem_singleton] at ha
          subst ha
          exact ⟨hlt, htn ▸ rfl, hgi ▸ rfl, Finset.mem_insert_self _ _⟩
      · rw [List.pairwise_append]
        refine ⟨hpw, List.pairwise_singleton _ _, ?_⟩
        intro a ha b hb
        simp only [List.mem_singleton] at hb
        subst hb
        exact hfresh a ha
    | false =>
      simp only [Bool.false_eq_true, if_neg, if_false]
      constructor
      · intro a ha
        obtain ⟨h1, h2, h3, h4⟩ := hall a ha
        refine ⟨h1, h2, h3, Finset.mem_erase.mpr ⟨hfresh a ha, Finset.mem_insert_of_mem h4⟩⟩
      · exact hpw
  | release a =>
    rw [allocStep]
    have hnd : s.live.Nodup := by
      refine List.Pairwise.imp ?_ hpw
      intro x y hxy hexy
      exact hxy (hexy ▸ rfl)
    constructor
    · intro b hb
      rw [List.Nodup.mem_erase_iff hnd] at hb
      obtain ⟨hbne, hbin⟩ := hb
      obtain ⟨h1, h2, h3, h4⟩ := hall b hbin
      refine ⟨h1, h2, h3, Finset.mem_erase.mpr ⟨?_, h4⟩⟩
      exact hpw.forall (fun x y hxy => fun he => hxy he.symm) hbin hwf hbne
    · exact List.Pairwise.sublist (List.erase_sublist a s.live) hpw

theorem wfFrom_inv (ops : List AllocOp) :
    ∀ s, AllocInv s → wfFrom s ops → AllocInv (ops.foldl allocStep s) := by
  induction ops with
  | nil => intro s h _; exact h
  | cons op ops ih =>
    intro s hinv hwf
    exact ih (allocStep s op) (allocStep_preserves_inv s op hinv hwf.1) hwf.2

/-- C2 (witness): instantiating the validation implication on the
concrete successful call nat-setup fc_tap0 172.16.0.2 eth0. -/
theorem C2_witness :
    validateTap (lit "fc_tap0") = true ∧ validateIp (lit "172.16.0.2") = true :=
  C2_argument_validation.2.2.2.1 (lit "fc_tap0") (lit "172.16.0.2") (lit "eth0")
    ((natSetup (lit "fc_tap0") (lit "172.16.0.2") (lit "eth0")).toOption.getD [])
    (by rfl)

/-- C4 (witness): the unreachable-daemon case at a concrete error
message. -/
theorem C4_witness :
    (execModel (GuestHttp.unreachable (lit "fetch failed"))).exit_code = 1 ∧
    (execModel (GuestHttp.unreachable (lit "fetch failed"))).stdout = [] ∧
    (execModel (GuestHttp.unreachable (lit "fetch failed"))).stderr ≠ [] :=
  (C4_exec_guest_failures _).1 (lit "fetch failed") rfl

/-- C6 (witness): with a failing snapshot-file creation after a
successful pause, resume is still invoked, last. -/
theorem C6_witness :
    SnapEvent.resumeCall ∈ (snapshotModel true false true true).1 ∧
    (snapshotModel true false true true).1.getLast? = some SnapEvent.resumeCall :=
  (C6_snapshot_order true false true true).2.2 rfl

theorem filterMap_proxy_blocks (f : StopFailures) (l : List Nat) :
    (l.flatMap fun i => [StopEvent.closeProxy i] ++
        (if f.proxyFails i then [StopEvent.logProxyErr i] else [])).filterMap proxyIdxOf
      = l := by
  induction l with
  | nil => rfl
  | cons i t ih =>
    rw [List.flatMap_cons, List.filterMap_append, ih]
    by_cases hp : f.proxyFails i
    · simp [hp, proxyIdxOf]
    · simp [hp, proxyIdxOf]

theorem count_proxy_blocks (f : StopFailures) (e : StopEvent) (l : List Nat)
    (he : ∀ i, e ≠ StopEvent.closeProxy i ∧ e ≠ StopEvent.logProxyErr i) :
    (l.flatMap fun i => [StopEvent.closeProxy i] ++
        (if f.proxyFails i then [StopEvent.logProxyErr i] else [])).count e = 0 := by
  rw [List.count_eq_zero]
  intro hm
  rw [List.mem_flatMap] at hm
  obtain ⟨i, _, hmi⟩ := hm
  by_cases hp : f.proxyFails i
  · rw [if_pos hp] at hmi
    simp only [List.cons_append, List.nil_append, List.mem_cons,
      List.mem_singleton, List.not_mem_nil] at hmi
    rcases hmi with h | h | h
    · exact (he i).1 h
    · exact (he i).2 h
    · exact h
  · rw [if_neg hp] at hmi
    simp only [List.cons_append, List.nil_append, List.mem_singleton,
      List.mem_cons, List.not_mem_nil, or_false] at hmi
    exact (he i).1 hmi

theorem releaseTap_head_sublist (t : TapAllocation) (a b : Bool) :
    List.Sublist [StartEvent.releaseTap t] (releaseTapEvents t a b) := by
  rw [releaseTapEvents]
  exact (List.sublist_append_left _ _).trans (List.sublist_append_left _ _)

theorem rollback_release_order (env : StartEnv) (fcPid : Option Nat)
    (tap : TapAllocation) :
    List.Sublist [StartEvent.releaseTap tap, StartEvent.unlinkSocket, StartEvent.rmVmDir]
      (rollbackEvents env fcPid tap) := by
  rw [rollbackEvents.eq_def]
  have h1 : List.Sublist [StartEvent.releaseTap tap]
      ((match fcPid with
        | some p => [StartEvent.killFc p] ++
            (if env.killOk then [] else [StartEvent.logKillFailed])
        | none => []) ++ releaseTapEvents tap env.natTeardownOk env.tapDeleteOk) :=
    (releaseTap_head_sublist tap _ _).trans (List.sublist_append_right _ _)
  exact List.Sublist.append h1 (List.Sublist.refl _)

theorem rollback_kill_order (env : StartEnv) (p : Nat) (tap : TapAllocation) :
    List.Sublist [StartEvent.killFc p, StartEvent.releaseTap tap,
        StartEvent.unlinkSocket, StartEvent.rmVmDir]
      (rollbackEvents env (some p) tap) := by
  rw [rollbackEvents.eq_def]
  have h1 : List.Sublist [StartEvent.killFc p]
      ([StartEvent.killFc p] ++
        (if env.killOk then [] else [StartEvent.logKillFailed])) :=
    List.sublist_append_left _ _
  have h2 := List.Sublist.append h1 (releaseTap_head_sublist tap env.natTeardownOk env.tapDeleteOk)
  exact List.Sublist.append h2 (List.Sublist.refl [StartEvent.unlinkSocket, StartEvent.rmVmDir])

theorem rollback_log_kill (env : StartEnv) (p : Nat) (tap : TapAllocation)
    (hk : env.killOk = false) :
    StartEvent.logKillFailed ∈ rollbackEvents env (some p) tap := by
  simp [rollbackEvents, hk]

/-- C9 (witness): the missing-binary error at a concrete environment
produces no trace events at all. -/
theorem C9_witness : startModel noBinaryEnv = ([], .error .binaryMissing) :=
  C9_prerequisite_order.1 noBinaryEnv rfl

/-- C10 (witness): the restore-without-metadata behavior at the concrete
environment noMetadataEnv. -/
theorem C10_witness :
    (startModel noMetadataEnv).2 =
      .ok { tap := deriveAllocation 0, pid := 77 } ∧
    StartEvent.copyRootfs (snapshotRootfsPath (lit "snap1")) defaultVmRootfs ∈
      (startModel noMetadataEnv).1 :=
  ⟨(C10_restore_without_metadata noMetadataEnv (lit "snap1") rfl rfl rfl rfl rfl
      rfl rfl rfl rfl rfl rfl rfl rfl).1,
   (C10_restore_without_metadata noMetadataEnv (lit "snap1") rfl rfl rfl rfl rfl
      rfl rfl rfl rfl rfl rfl rfl rfl).2.1⟩

/-- C1 (amended): for every call sequence in which releaseTap is only
passed a live allocation and recreateTap is only passed snapshot
metadata of a previously produced allocation whose index is not
currently live, no two simultaneously-live allocations share a
subnetIndex, tapName, or guestIp, and every live allocation's index is
in the reserved-index set — from any startup reserved set. -/
theorem C1_no_shared_allocation (r0 : Finset Nat) (ops : List AllocOp)
    (hwf : wfFrom { reserved := r0, live := [] } ops) :
    (∀ a ∈ (runTrace r0 ops).live, ∀ b ∈ (runTrace r0 ops).live, a ≠ b →
      a.subnetIndex ≠ b.subnetIndex ∧ a.tapName ≠ b.tapName ∧ a.guestIp ≠ b.guestIp) ∧
    (∀ a ∈ (runTrace r0 ops).live, a.subnetIndex ∈ (runTrace r0 ops).reserved) := by
  have hinv0 : AllocInv { reserved := r0, live := [] } := by
    constructor
    · intro a ha; simp at ha
    · simp [AllocInv]
  have hinv := wfFrom_inv ops _ hinv0 hwf
  obtain ⟨hall, hpw⟩ := hinv
  refine ⟨?_, fun a ha => (hall a ha).2.2.2⟩
  intro a ha b hb hne
  have hidx : a.subnetIndex ≠ b.subnetIndex :=
    hpw.forall (fun x y hxy => fun he => hxy he.symm) ha hb hne
  obtain ⟨halt, hat, hag, _⟩ := hall a ha
  obtain ⟨hblt, hbt, hbg, _⟩ := hall b hb
  refine ⟨hidx, ?_, ?_⟩
  · rw [hat, hbt]
    intro he
    exact hidx (tapNameOf_injective he)
  · rw [hag, hbg]
    intro he
    exact hidx (guestIpOf_inj_lt _ _ halt hblt he)

/-- C5: when allocateTap reserves index idx, the returned allocation has
hostIp 172.16.(idx*4/256).((idx*4%256)+1), guestIp one above it (last
octet one greater), and tapName fc_tap<idx>. -/
theorem C5_allocation_derivation (r : Finset Nat) (live : List TapAllocation)
    (idx : Nat) (h : findFreeIdx r = some idx) :
    (allocStep { reserved := r, live := live } (AllocOp.alloc true)).live =
      live ++ [deriveAllocation idx] ∧
    (deriveAllocation idx).hostIp =
      String.data "172.16." ++ decDigits (idx * 4 / 256) ++
        '.' :: decDigits (idx * 4 % 256 + 1) ∧
    (deriveAllocation idx).guestIp =
      String.data "172.16." ++ decDigits (idx * 4 / 256) ++
        '.' :: decDigits (idx * 4 % 256 + 1 + 1) ∧
    (deriveAllocation idx).tapName = String.data "fc_tap" ++ decDigits idx := by
  have hlt := (findFreeIdx_spec r idx h).2
  have hdivlt : idx * 4 / 256 < 256 := by omega
  have hdiv : (idx * 4 / 256) % 256 = idx * 4 / 256 := Nat.mod_eq_of_lt hdivlt
  refine ⟨?_, ?_, ?_, rfl⟩
  · rw [allocStep, h]
    simp
  · show ipStr (octet2Of idx) (octet3Of idx + 1) = _
    rw [ipStr, octet2Of, octet3Of, hdiv]
  · show ipStr (octet2Of idx) (octet3Of idx + 2) = _
    rw [ipStr, octet2Of, octet3Of, hdiv]

/-- C8: for every allocation a produced by allocateTap (a =
deriveAllocation idx for the reserved index idx), recreateTap with
a.tapName, a.guestIp, a.guestMac parses the same subnetIndex back out of
the TAP name and re-derives the same hostIp the original allocation
had. -/
theorem C8_recreate_round_trip (r : Finset Nat) (idx : Nat) (s : AllocState)
    (_h : findFreeIdx r = some idx) :
    parseTapIdx (deriveAllocation idx).tapName = some idx ∧
    (allocStep s (AllocOp.recreate (deriveAllocation idx).tapName
        (deriveAllocation idx).guestIp (deriveAllocation idx).guestMac true)).live =
      s.live ++ [recreatedAllocation (deriveAllocation idx).tapName
        (deriveAllocation idx).guestIp (deriveAllocation idx).guestMac idx] ∧
    (recreatedAllocation (deriveAllocation idx).tapName (deriveAllocation idx).guestIp
        (deriveAllocation idx).guestMac idx).hostIp = (deriveAllocation idx).hostIp ∧
    (recreatedAllocation (deriveAllocation idx).tapName (deriveAllocation idx).guestIp
        (deriveAllocation idx).guestMac idx).subnetIndex =
      (deriveAllocation idx).subnetIndex := by
  refine ⟨parseTapIdx_tapNameOf idx, ?_, rfl, rfl⟩
  rw [allocStep]
  show (match parseTapIdx (tapNameOf idx) with
    | none => s
    | some i =>
      if true then
        { reserved := insert i s.reserved,
          live := s.live ++ [recreatedAllocation (deriveAllocation idx).tapName
            (deriveAllocation idx).guestIp (deriveAllocation idx).guestMac i] }
      else
        { reserved := (insert i s.reserved).erase i, live := s.live } : AllocState).live = _
  rw [parseTapIdx_tapNameOf]
  simp

/-- C7: calling stop twice performs each cleanup step exactly once over
the two calls — the hypervisor kill, network release and control-socket
unlink each occur once in the combined trace, and the proxy closes are
exactly one per proxy, in order — and the second call is a no-op: it
emits no actions and leaves the stopped flag unchanged.  This holds for
every pattern of step failures in the first call. -/
theorem C7_stop_idempotent (n : Nat) (f1 f2 : StopFailures) :
    (stopModel false n f1).1 = true ∧
    stopModel (stopModel false n f1).1 n f2 = (true, []) ∧
    ((stopModel false n f1).2 ++ (stopModel (stopModel false n f1).1 n f2).2).count
        StopEvent.killHyperv = 1 ∧
    ((stopModel false n f1).2 ++ (stopModel (stopModel false n f1).1 n f2).2).count
        StopEvent.releaseNet = 1 ∧
    ((stopModel false n f1).2 ++ (stopModel (stopModel false n f1).1 n f2).2).count
        StopEvent.unlinkSock = 1 ∧
    ((stopModel false n f1).2 ++ (stopModel (stopModel false n f1).1 n f2).2).filterMap
        proxyIdxOf = List.range n := by
  have h1 : (stopModel false n f1).1 = true := by rw [stopModel]; simp
  have h2 : stopModel true n f2 = (true, []) := by rw [stopModel]; simp
  have htr : (stopModel (stopModel false n f1).1 n f2).2 = [] := by rw [h1, h2]
  refine ⟨h1, by rw [h1, h2], ?_, ?_, ?_, ?_⟩ <;> rw [htr, List.append_nil]
  · rw [stopModel]
    simp only [if_neg (by simp : ¬ false = true)]
    simp only [List.count_append]
    rw [count_proxy_blocks f1 _ _ (fun i => ⟨by simp, by simp⟩)]
    cases hk : f1.killFails <;> cases hr : f1.releaseFails <;>
      simp [List.count_cons, List.count_singleton, List.count_nil]
  · rw [stopModel]
    simp only [if_neg (by simp : ¬ false = true)]
    simp only [List.count_append]
    rw [count_proxy_blocks f1 _ _ (fun i => ⟨by simp, by simp⟩)]
    cases hk : f1.killFails <;> cases hr : f1.releaseFails <;>
      simp [List.count_cons, List.count_singleton, List.count_nil]
  · rw [stopModel]
    simp only [if_neg (by simp : ¬ false = true)]
    simp only [List.count_append]
    rw [count_proxy_blocks f1 _ _ (fun i => ⟨by simp, by simp⟩)]
    cases hk : f1.killFails <;> cases hr : f1.releaseFails <;>
      simp [List.count_cons, List.count_singleton, List.count_nil]
  · rw [stopModel]
    simp only [if_neg (by simp : ¬ false = true)]
    simp only [List.filterMap_append]
    rw [filterMap_proxy_blocks f1 (List.range n)]
    cases hk : f1.killFails <;> cases hr : f1.releaseFails <;>
      simp [proxyIdxOf]

/-- C3 (amended): for every error raised inside the try block of
startFirecrackerSandbox — after the binary/kernel checks pass and the
initial network allocation succeeds — the original error is re-raised
unchanged and the trace ends with the rollback: kill the hypervisor (if
it was spawned) first, then release the current network allocation, then
delete the control socket and the working directory, in that order; a
kill failure is logged and no cleanup failure removes a later cleanup
step. -/
theorem C3_rollback_on_error (env : StartEnv) (e : StartErr)
    (hbin : env.binaryExists = true) (hker : env.kernelExists = true)
    (halloc : env.allocOk = true)
    (herr : (startModel env).2 = .error e) :
    (startBody env env.freshTap).outcome = .error e ∧
    (startModel env).1 =
      [StartEvent.mkVmDir, StartEvent.allocTap env.freshTap] ++
        (startBody env env.freshTap).events ++
        rollbackEvents env (startBody env env.freshTap).fcPid
          (startBody env env.freshTap).tap ∧
    List.Sublist [StartEvent.releaseTap (startBody env env.freshTap).tap,
        StartEvent.unlinkSocket, StartEvent.rmVmDir]
      (rollbackEvents env (startBody env env.freshTap).fcPid
        (startBody env env.freshTap).tap) ∧
    (∀ p, (startBody env env.freshTap).fcPid = some p →
      List.Sublist [StartEvent.killFc p,
          StartEvent.releaseTap (startBody env env.freshTap).tap,
          StartEvent.unlinkSocket, StartEvent.rmVmDir]
        (rollbackEvents env (startBody env env.freshTap).fcPid
          (startBody env env.freshTap).tap)) ∧
    (env.killOk = false → ∀ p, (startBody env env.freshTap).fcPid = some p →
      StartEvent.logKillFailed ∈ rollbackEvents env
        (startBody env env.freshTap).fcPid (startBody env env.freshTap).tap) := by
  cases hout : (startBody env env.freshTap).outcome with
  | ok res =>
    rw [startModel] at herr
    simp [hbin, hker, halloc, hout] at herr
  | error e2 =>
    have he2 : e2 = e := by
      rw [startModel] at herr
      simp [hbin, hker, halloc, hout] at herr
      exact herr
    subst he2
    refine ⟨rfl, ?_, rollback_release_order _ _ _, ?_, ?_⟩
    · rw [startModel]
      simp [hbin, hker, halloc, hout, List.append_assoc]
    · intro p hp
      rw [hp]
      exact rollback_kill_order env p _
    · intro hk p hp
      rw [hp]
      exact rollback_log_kill env p _ hk

/-- C1 (witness): instantiating the amended invariant on the singleton
trace [allocateTap()]: the returned allocation's index is reserved. -/
theorem C1_witness :
    (deriveAllocation 0).subnetIndex ∈ (runTrace ∅ [AllocOp.alloc true]).reserved := by
  have h := C1_no_shared_allocation ∅ [AllocOp.alloc true] ⟨trivial, trivial⟩
  exact h.2 (deriveAllocation 0) (by decide)

/-- C5 (witness): the derivation at the concrete state r = ∅ (idx 0):
hostIp 172.16.0.1, guestIp 172.16.0.2, tapName fc_tap0. -/
theorem C5_witness :
    (allocStep { reserved := ∅, live := [] } (AllocOp.alloc true)).live =
      [] ++ [deriveAllocation 0] ∧
    (deriveAllocation 0).hostIp =
      String.data "172.16." ++ decDigits (0 * 4 / 256) ++
        '.' :: decDigits (0 * 4 % 256 + 1) ∧
    (deriveAllocation 0).guestIp =
      String.data "172.16." ++ decDigits (0 * 4 / 256) ++
        '.' :: decDigits (0 * 4 % 256 + 1 + 1) ∧
    (deriveAllocation 0).tapName = String.data "fc_tap" ++ decDigits 0 :=
  C5_allocation_derivation ∅ [] 0 (by decide)

/-- C8 (witness): the round trip at the concrete allocation of index 0
from the empty reserved set. -/
theorem C8_witness :
    parseTapIdx (deriveAllocation 0).tapName = some 0 ∧
    (allocStep { reserved := ∅, live := [] } (AllocOp.recreate
        (deriveAllocation 0).tapName (deriveAllocation 0).guestIp
        (deriveAllocation 0).guestMac true)).live =
      [] ++ [recreatedAllocation (deriveAllocation 0).tapName
        (deriveAllocation 0).guestIp (deriveAllocation 0).guestMac 0] ∧
    (recreatedAllocation (deriveAllocation 0).tapName (deriveAllocation 0).guestIp
        (deriveAllocation 0).guestMac 0).hostIp = (deriveAllocation 0).hostIp ∧
    (recreatedAllocation (deriveAllocation 0).tapName (deriveAllocation 0).guestIp
        (deriveAllocation 0).guestMac 0).subnetIndex =
      (deriveAllocation 0).subnetIndex :=
  C8_recreate_round_trip ∅ 0 { reserved := ∅, live := [] } (by decide)

/-- C7 (witness): the double-stop trace at two proxies with no step
failures. -/
theorem C7_witness :
    (stopModel false 2 (StopFailures.mk false (fun _ => false) false false)).1 = true ∧
    stopModel
        (stopModel false 2 (StopFailures.mk false (fun _ => false) false false)).1 2
        (StopFailures.mk false (fun _ => false) false false) = (true, []) ∧
    ((stopModel false 2 (StopFailures.mk false (fun _ => false) false false)).2 ++
        (stopModel
          (stopModel false 2 (StopFailures.mk false (fun _ => false) false false)).1 2
          (StopFailures.mk false (fun _ => false) false false)).2).count
        StopEvent.killHyperv = 1 ∧
    ((stopModel false 2 (StopFailures.mk false (fun _ => false) false false)).2 ++
        (stopModel
          (stopModel false 2 (StopFailures.mk false (fun _ => false) false false)).1 2
          (StopFailures.mk false (fun _ => false) false false)).2).count
        StopEvent.releaseNet = 1 ∧
    ((stopModel false 2 (StopFailures.mk false (fun _ => false) false false)).2 ++
        (stopModel
          (stopModel false 2 (StopFailures.mk false (fun _ => false) false false)).1 2
          (StopFailures.mk false (fun _ => false) false false)).2).count
        StopEvent.unlinkSock = 1 ∧
    ((stopModel false 2 (StopFailures.mk false (fun _ => false) false false)).2 ++
        (stopModel
          (stopModel false 2 (StopFailures.mk false (fun _ => false) false false)).1 2
          (StopFailures.mk false (fun _ => false) false false)).2).filterMap
        proxyIdxOf = List.range 2 :=
  C7_stop_idempotent 2 (StopFailures.mk false (fun _ => false) false false)
    (StopFailures.mk false (fun _ => false) false false)

/-- C3 (witness): the amended rollback property at a concrete
environment whose boot configuration fails after a successful spawn. -/
theorem C3_witness :
    StartEvent.logKillFailed ∈ rollbackEvents bootFailEnv
      (startBody bootFailEnv bootFailEnv.freshTap).fcPid
      (startBody bootFailEnv bootFailEnv.freshTap).tap :=
  (C3_rollback_on_error bootFailEnv StartErr.bootConfigFailed rfl rfl rfl
      (by rfl)).2.2.2.2 rfl 4321 rfl

end Manaflow
